import Mathlib

/-!
Verification of the NBA packet-processing framework sources against its
design specification.

The development shallowly embeds the relevant parts of the C++ sources:

* `src/src/main.cc`            — bootstrap sequence, CLI parsing, ring
                                 creation, signal handler;
* `src/unnamed/part_001`       — `datablock_shared.hh` host/device layout;
* `src/unnamed/part_002`       — `IPsecAuthHMACSHA1` element (configure,
                                 per-phase initialization, `process`).

Machine bytes are modelled as `Nat` values (< 256 where it matters),
memory buffers as functions `Nat → Nat`, and fallible steps as `Option`.
The external SHA1 primitive (OpenSSL) is a parameter of the model; the
HMAC construction itself is transcribed from the element source.
-/

namespace NBA

/-! ## Byte buffers -/

/-- Read `n` bytes from buffer `buf` starting at offset `off`. -/
def readBytes (buf : Nat → Nat) (off n : Nat) : List Nat :=
  (List.range n).map (fun i => buf (off + i))

/-- Write the byte list `src` into buffer `buf` starting at offset `off`
(models `rte_memcpy(buf + off, src, src.length)`). -/
def writeBytes (buf : Nat → Nat) (off : Nat) (src : List Nat) : Nat → Nat :=
  fun i => if off ≤ i ∧ i < off + src.length then src.getD (i - off) 0 else buf i

/-! ## IPsecAuthHMACSHA1 element (`src/unnamed/part_002`)

`IPsecAuthHMACSHA1::configure` hard-codes `num_tunnels = 1024`.
`HMAC_KEY_SIZE` is 64 and `SHA_DIGEST_LENGTH` is 20. -/

/-- `num_tunnels` as set by `IPsecAuthHMACSHA1::configure`. -/
def numTunnels : Nat := 1024

/-- `SHA_DIGEST_LENGTH` from OpenSSL. -/
def SHA_DIGEST_LENGTH : Nat := 20

/-- `HMAC_KEY_SIZE`: size of the per-tunnel key, 64 bytes. -/
def HMAC_KEY_SIZE : Nat := 64

/-- Offset of `payload_out` inside the packet buffer:
`sizeof(struct ether_hdr) + sizeof(struct iphdr)` = 14 + 20 = 34. -/
def payloadOutOffset : Nat := 34

/-- A packet as seen by `process`: the mbuf data region (`pkt->data()`) as a
byte function and the `NBA_ANNO_IPSEC_FLOW_ID` annotation slot
(`none` models `anno_isset` returning false). -/
structure PacketState where
  data : Nat → Nat
  ipsecFlowId : Option Nat

/-- `ntohs(iph->tot_len)`: the IP total length, bytes 16–17 of the frame,
big-endian. -/
def ipTotLen (data : Nat → Nat) : Nat := 256 * data 16 + data 17

/-- `iph->ihl`: low nibble of the version/ihl byte at frame offset 14
(little-endian bitfield order puts `ihl` in the low 4 bits). -/
def ipIhl (data : Nat → Nat) : Nat := data 14 % 16

/-- `int payload_len = ntohs(iph->tot_len) - (iph->ihl * 4) - SHA_DIGEST_LENGTH`
computed in signed arithmetic, as in the source. -/
def payloadLenInt (data : Nat → Nat) : Int :=
  (ipTotLen data : Int) - (ipIhl data : Int) * 4 - (SHA_DIGEST_LENGTH : Int)

/-- The 64-byte block `key[i] XOR pad` for `i < 64`.  The source computes it
as eight `uint64_t` XORs against `0x3636…36` / `0x5c5c…5c`; on a
little-endian machine this is exactly a byte-wise XOR with the repeated pad
byte. -/
def xorBlock (pad : Nat) (key : Nat → Nat) : List Nat :=
  (List.range HMAC_KEY_SIZE).map (fun i => Nat.xor pad (key i))

/-- The 64-byte key of tunnel `k` (field `hmac_key` of `flows[k]`). -/
def tunnelKey (flows : Nat → Nat → Nat) (k : Nat) : List Nat :=
  (List.range HMAC_KEY_SIZE).map (flows k)

/-- Result of one `process` invocation: the final packet bytes, whether
`pkt->kill()` was called, the ports pushed to (`output(p).push`), and the
return value. -/
structure ProcResult where
  data : Nat → Nat
  killed : Bool
  pushes : List Nat
  ret : Int

/-- Shallow embedding of `IPsecAuthHMACSHA1::process` (CPU path).

Parameters: `sha1` is the external OpenSSL `SHA1` primitive (message ↦
20-byte digest); `flows` gives the byte contents of `flows[k].hmac_key`;
`buf0` is the initial (uninitialized) content of the 2048-byte stack buffer
`hmac_buf`; `pkt` is the input packet.

Steps mirror the source exactly:
1. `anno_isset` check; on failure `pkt->kill(); return 0;`.
2. `rte_memcpy(hmac_buf + 64, payload_out, payload_len)`.
3. inner-pad XOR writes to `hmac_buf[0..63]`.
4. `SHA1(hmac_buf, 64 + payload_len, isum)`.
5. `rte_memcpy(hmac_buf + 64, isum, SHA_DIGEST_LENGTH)`.
6. outer-pad XOR writes to `hmac_buf[0..63]`.
7. `SHA1(hmac_buf, 64 + SHA_DIGEST_LENGTH, payload_out + payload_len)`.
8. `output(0).push(pkt); return 0;`. -/
def processIPsecAuth (sha1 : List Nat → List Nat) (flows : Nat → Nat → Nat)
    (buf0 : Nat → Nat) (pkt : PacketState) : ProcResult :=
  match pkt.ipsecFlowId with
  | none => ⟨pkt.data, true, [], 0⟩
  | some k =>
    let hmacKey := flows k
    let pl := (payloadLenInt pkt.data).toNat
    let payload := readBytes pkt.data payloadOutOffset pl
    let b1 := writeBytes buf0 64 payload
    let b2 := writeBytes b1 0 (xorBlock 0x36 hmacKey)
    let isum := sha1 (readBytes b2 0 (64 + pl))
    let b3 := writeBytes b2 64 (isum.take SHA_DIGEST_LENGTH)
    let b4 := writeBytes b3 0 (xorBlock 0x5c hmacKey)
    let osum := sha1 (readBytes b4 0 (64 + SHA_DIGEST_LENGTH))
    ⟨writeBytes pkt.data (payloadOutOffset + pl) (osum.take SHA_DIGEST_LENGTH),
     false, [0], 0⟩

/-- Reference HMAC-SHA1 (RFC 2104) for a key of exactly one block (64 bytes):
`H((K ⊕ opad) ‖ H((K ⊕ ipad) ‖ m))`. -/
def hmacSha1Ref (sha1 : List Nat → List Nat) (key msg : List Nat) : List Nat :=
  sha1 ((key.map (fun b => Nat.xor 0x5c b)) ++
        sha1 ((key.map (fun b => Nat.xor 0x36 b)) ++ msg))

/-! ## Memory accesses of `IPsecAuthHMACSHA1::process` (claim about bounds)

`hmac_buf` is `uint8_t hmac_buf[2048]` on the stack; `payload_len` is a
signed `int` that is passed to `rte_memcpy` and `SHA1`, where it is
converted to `size_t` (64-bit, modular). -/

/-- Size of the stack buffer `uint8_t hmac_buf[2048]`. -/
def HMAC_BUF_SIZE : Nat := 2048

/-- Conversion of a signed `int` value to `size_t` (C integer conversion,
reduction modulo 2^64). -/
def sizeTOfInt (x : Int) : Nat := (x % (2 : Int) ^ 64).toNat

/-- The intervals of `hmac_buf` touched by one `process` invocation with the
annotation set, as `(start, length)` pairs, in program order:
payload `rte_memcpy` to offset 64, inner-pad stores to `[0,64)`, first
`SHA1` read of `64 + payload_len` bytes, `isum` copy to offset 64, outer-pad
stores to `[0,64)`, second `SHA1` read of 84 bytes. -/
def hmacBufIntervals (payloadLen : Int) : List (Nat × Nat) :=
  [(64, sizeTOfInt payloadLen),
   (0, 64),
   (0, 64 + sizeTOfInt payloadLen),
   (64, SHA_DIGEST_LENGTH),
   (0, 64),
   (0, 64 + SHA_DIGEST_LENGTH)]

/-- All `(start, length)` intervals fit inside a buffer of `size` bytes. -/
def intervalsWithin (size : Nat) (l : List (Nat × Nat)) : Bool :=
  l.all (fun p => decide (p.1 + p.2 ≤ size))

/-- Every memory access of the CPU path of `process` (given the annotation
value `flowIdx` and the computed `payload_len`) stays in bounds: the
`flows` array index is below `nTunnels`, and every `hmac_buf` interval fits
in the 2048-byte stack buffer. -/
def processMemSafe (nTunnels flowIdx : Nat) (payloadLen : Int) : Prop :=
  flowIdx < nTunnels ∧
  intervalsWithin HMAC_BUF_SIZE (hmacBufIntervals payloadLen) = true

/-! ## Initialization lifecycle of `IPsecAuthHMACSHA1`

The process-global key array `hmac_sa_entry_array` is allocated by
`initialize_global`, copied into node-local storage by
`initialize_per_node` (which `assert`s it is still non-NULL), and freed —
with a NULL guard — by the per-thread `initialize`. -/

/-- The 64-byte constant key `"abcdabcd…"` written by `initialize_global`
(bytes of `a`, `b`, `c`, `d` repeated). -/
def hmacKeyBytes : List Nat := (List.range HMAC_KEY_SIZE).map (fun i => 97 + i % 4)

/-- State touched by the three initialization phases: the process-global
array (`none` models `NULL`) and the per-node `h_hmac_flows` copies in
node-local storage. -/
structure IpsecInitState where
  saEntryArray : Option (List (List Nat))
  nodeFlows : Nat → Option (List (List Nat))

/-- Fresh state before any initialization (globals zero-initialized). -/
def ipsecInitState0 : IpsecInitState := ⟨none, fun _ => none⟩

/-- `IPsecAuthHMACSHA1::initialize_global`: `assert(num_tunnels != 0)`
(`none` models an assertion failure), then allocate and fill the key array
with one entry per tunnel. -/
def ipsecInitGlobal (nTunnels : Nat) (s : IpsecInitState) : Option IpsecInitState :=
  if nTunnels = 0 then none
  else some { s with saEntryArray := some ((List.range nTunnels).map (fun _ => hmacKeyBytes)) }

/-- `IPsecAuthHMACSHA1::initialize_per_node`: allocate node-local storage,
`assert(hmac_sa_entry_array != NULL)` (`none` models a failed assertion),
and `rte_memcpy` the array into the node's `h_hmac_flows`. -/
def ipsecInitPerNode (node : Nat) (s : IpsecInitState) : Option IpsecInitState :=
  match s.saEntryArray with
  | none => none
  | some arr =>
    some { s with nodeFlows := fun n => if n = node then some arr else s.nodeFlows n }

/-- Per-thread `IPsecAuthHMACSHA1::initialize`: fetch node-local pointers,
then `if (hmac_sa_entry_array != NULL) { free(...); hmac_sa_entry_array = NULL; }`. -/
def ipsecInitPerThread (s : IpsecInitState) : IpsecInitState :=
  match s.saEntryArray with
  | none => s
  | some _ => { s with saEntryArray := none }

/-- One per-node or per-thread initialization call, tagged with the node or
thread it runs for. -/
inductive InitCall where
  | perNode (node : Nat)
  | perThread (tid : Nat)
  deriving DecidableEq, Repr

/-- Run a sequence of per-node / per-thread initialization calls;
`none` as soon as an assertion fails. -/
def runInitCalls : List InitCall → IpsecInitState → Option IpsecInitState
  | [], s => some s
  | InitCall.perNode n :: rest, s =>
    match ipsecInitPerNode n s with
    | none => none
    | some s2 => runInitCalls rest s2
  | InitCall.perThread _ :: rest, s => runInitCalls rest (ipsecInitPerThread s)

/-- Whether a call sequence contains any `perNode` call. -/
def hasPerNode (l : List InitCall) : Bool :=
  l.any (fun c => match c with | InitCall.perNode _ => true | _ => false)

/-- `true` iff no `perNode` call appears after a `perThread` call, i.e.
every per-node initialization precedes the first per-thread one. -/
def nodesBeforeThreads : List InitCall → Bool
  | [] => true
  | InitCall.perNode _ :: rest => nodesBeforeThreads rest
  | InitCall.perThread _ :: rest => !(hasPerNode rest)

/-! ## Bootstrap sequence of `main` (`src/src/main.cc`)

The main thread performs the phases below in program order; the steps
executed inside worker threads (device init, offload-element init) are
serialized with `CountedBarrier` waits on the main thread, so main-thread
program order is the global order of the phases. -/

inductive BootPhase where
  | configLoad
  | nicQueueSetup
  | createSwRings
  | spawnCoprocAndDevInit
  | perClassInit
  | perNodeInit
  | offloadElemInit
  | perThreadInit
  | coprocLoopStart
  | spawnIoThreads
  | masterLoopRun
  | trafficStart
  deriving DecidableEq, Repr, BEq

/-- The phase order of `main` (lines 265–947 of `main.cc`): config load,
NIC rxq/txq setup, SW ring creation, coproc spawn + device init (barriered),
`initialize_graph_global`, `initialize_graph_per_node`, offloadable init in
the coproc threads (barriered, only when coproc threads exist),
`initialize_graph_per_thread`, coproc loop start, IO thread spawn, master
IO loop, traffic. -/
def bootstrapTrace (hasCoproc : Bool) : List BootPhase :=
  [BootPhase.configLoad, BootPhase.nicQueueSetup, BootPhase.createSwRings] ++
  (if hasCoproc then [BootPhase.spawnCoprocAndDevInit] else []) ++
  [BootPhase.perClassInit, BootPhase.perNodeInit] ++
  (if hasCoproc then [BootPhase.offloadElemInit] else []) ++
  [BootPhase.perThreadInit] ++
  (if hasCoproc then [BootPhase.coprocLoopStart] else []) ++
  [BootPhase.spawnIoThreads, BootPhase.masterLoopRun, BootPhase.trafficStart]

/-- Position of a phase in a trace (`length` when absent). -/
def phasePos (t : List BootPhase) (p : BootPhase) : Nat := t.indexOf p

/-- The initialization order asserted by the specification: per-class, then
per-node, then per-thread, then offload-element, all before traffic. -/
def specPhaseOrder (t : List BootPhase) : Prop :=
  phasePos t BootPhase.perClassInit < phasePos t BootPhase.perNodeInit ∧
  phasePos t BootPhase.perNodeInit < phasePos t BootPhase.perThreadInit ∧
  phasePos t BootPhase.perThreadInit < phasePos t BootPhase.offloadElemInit ∧
  phasePos t BootPhase.offloadElemInit < phasePos t BootPhase.trafficStart

/-- The initialization order actually implemented by `main`: per-class, then
per-node, then offload-element, then per-thread, all before traffic. -/
def codePhaseOrder (t : List BootPhase) : Prop :=
  phasePos t BootPhase.perClassInit < phasePos t BootPhase.perNodeInit ∧
  phasePos t BootPhase.perNodeInit < phasePos t BootPhase.offloadElemInit ∧
  phasePos t BootPhase.offloadElemInit < phasePos t BootPhase.perThreadInit ∧
  phasePos t BootPhase.perThreadInit < phasePos t BootPhase.trafficStart

/-! ## Positional-argument validation in `main`

After `getopt_long` finishes, `optind` points at the first positional
argument.  The source checks `if (optind + 2 < argc - 1)` and exits with
"Not enough NBA arguments."; the assignment loop exits with "Too many NBA
arguments." when a third positional argument is reached. -/

inductive ArgCheck where
  | fatalExit (msg : String)
  | proceed (sysConfig : Option String) (pipeConfig : Option String)
  deriving DecidableEq, Repr

/-- The positional-argument handling of `main` (`main.cc` lines 207–223),
with `argv` giving the argument at each index. -/
def mainArgCheck (optind argc : Nat) (argv : Nat → String) : ArgCheck :=
  if (optind : Int) + 2 < (argc : Int) - 1 then
    ArgCheck.fatalExit "Not enough NBA arguments."
  else
    match (List.range (argc - optind)).map (fun j => argv (optind + j)) with
    | [] => ArgCheck.proceed none none
    | [a] => ArgCheck.proceed (some a) none
    | [a, b] => ArgCheck.proceed (some a) (some b)
    | _ => ArgCheck.fatalExit "Too many NBA arguments."

/-! ## `--loglevel` parsing in `main`

DPDK log level constants from `rte_log.h`. -/

def RTE_LOG_EMERG : Nat := 1
def RTE_LOG_ALERT : Nat := 2
def RTE_LOG_CRIT : Nat := 3
def RTE_LOG_ERR : Nat := 4
def RTE_LOG_WARNING : Nat := 5
def RTE_LOG_NOTICE : Nat := 6
def RTE_LOG_INFO : Nat := 7
def RTE_LOG_DEBUG : Nat := 8

/-- The `-l` / `--loglevel` option handler (`main.cc` lines 181–199):
`none` models the `rte_exit(EXIT_FAILURE, "Invalid value for loglevel…")`
branch. -/
def parseLogLevelOpt (s : String) : Option Nat :=
  if s = "debug" then some RTE_LOG_DEBUG
  else if s = "info" then some RTE_LOG_INFO
  else if s = "notice" then some RTE_LOG_NOTICE
  else if s = "warning" then some RTE_LOG_WARNING
  else if s = "error" then some RTE_LOG_ERR
  else if s = "critical" then some RTE_LOG_CRIT
  else if s = "emergency" then some RTE_LOG_EMERG
  else none

/-! ## Software handoff rings created at bootstrap

`main` creates one ring per entry of `queue_confs` with
`rte_ring_create(name, queue_length, node, 0)` — the SP/SC flag expression
is commented out in the source — and then sets a watermark of
`queue_length - 8`. -/

/-- `RING_F_SP_ENQ` from `rte_ring.h`. -/
def RING_F_SP_ENQ : Nat := 1

/-- `RING_F_SC_DEQ` from `rte_ring.h`. -/
def RING_F_SC_DEQ : Nat := 2

inductive QueueTemplate where
  | SWRXQ
  | TASKINQ
  | TASKOUTQ
  deriving DecidableEq, Repr

structure QueueConf where
  template_ : QueueTemplate
  node_id : Nat
  mp_enq : Bool
  mc_deq : Bool

/-- The `queue_length` chosen per template (`main.cc` lines 450–463):
`SWRXQ` is fixed at 32 (with a FIXME), the task queues come from
`system_params`. -/
def bootstrapQueueLength (params : String → Nat) (t : QueueTemplate) : Nat :=
  match t with
  | QueueTemplate.SWRXQ => 32
  | QueueTemplate.TASKINQ => params "COPROC_INPUTQ_LENGTH"
  | QueueTemplate.TASKOUTQ => params "COPROC_COMPLETIONQ_LENGTH"

structure CreatedRing where
  length : Nat
  flags : Nat
  watermark : Nat
  deriving DecidableEq, Repr

/-- Ring creation for one `queue_conf` (`main.cc` lines 447–475): the flags
argument passed to `rte_ring_create` is the literal `0` (the
`(conf.mp_enq ? 0 : RING_F_SP_ENQ) | (conf.mc_deq ? 0 : RING_F_SC_DEQ)`
expression is commented out), and `rte_ring_set_water_mark` is called with
`queue_length - 8`. -/
def createBootstrapRing (params : String → Nat) (conf : QueueConf) : CreatedRing :=
  let ql := bootstrapQueueLength params conf.template_
  { length := ql, flags := 0, watermark := ql - 8 }

/-! ## Datablock host↔device layout (`src/unnamed/part_001`) -/

inductive CTy where
  | u16
  | u32
  | ptr
  deriving DecidableEq, Repr

/-- Sizes on the LP64 host / 64-bit device ABI. -/
def CTy.size : CTy → Nat
  | CTy.u16 => 2
  | CTy.u32 => 4
  | CTy.ptr => 8

def CTy.alignment : CTy → Nat
  | CTy.u16 => 2
  | CTy.u32 => 4
  | CTy.ptr => 8

structure CField where
  name : String
  ty : CTy
  deriving DecidableEq, Repr

/-- Round `off` up to a multiple of `a`. -/
def alignUp (off a : Nat) : Nat := ((off + a - 1) / a) * a

/-- C struct layout: the offset of each field in declaration order. -/
def fieldOffsets : Nat → List CField → List (String × Nat)
  | _, [] => []
  | off, f :: fs =>
    let o := alignUp off f.ty.alignment
    (f.name, o) :: fieldOffsets (o + f.ty.size) fs

/-- End offset after laying out all fields starting at `off`. -/
def layoutEnd : Nat → List CField → Nat
  | off, [] => off
  | off, f :: fs => layoutEnd (alignUp off f.ty.alignment + f.ty.size) fs

/-- Alignment of a struct: max of `alignas` value and all field alignments. -/
def structAlignment (alignasVal : Nat) (fs : List CField) : Nat :=
  (fs.map (fun f => f.ty.alignment)).foldr max alignasVal

/-- `struct alignas(8) datablock_batch_info` field list, in declaration
order (pointers, two `uint32_t` counts, four pointers). -/
def datablock_batch_info_fields : List CField :=
  [⟨"buffer_bases_in", CTy.ptr⟩,
   ⟨"buffer_bases_out", CTy.ptr⟩,
   ⟨"item_count_in", CTy.u32⟩,
   ⟨"item_count_out", CTy.u32⟩,
   ⟨"item_sizes_in", CTy.ptr⟩,
   ⟨"item_sizes_out", CTy.ptr⟩,
   ⟨"item_offsets_in", CTy.ptr⟩,
   ⟨"item_offsets_out", CTy.ptr⟩]

/-- `struct alignas(8) datablock_kernel_arg` scalar header fields, in
declaration order; the flexible array member `batches[0]` follows. -/
def datablock_kernel_arg_scalar_fields : List CField :=
  [⟨"total_item_count_in", CTy.u32⟩,
   ⟨"total_item_count_out", CTy.u32⟩,
   ⟨"item_size_in", CTy.u16⟩,
   ⟨"item_size_out", CTy.u16⟩]

/-- Offset of the flexible `batches[]` member: the end of the scalar header
rounded up to the alignment of `datablock_batch_info`. -/
def batchesOffset : Nat :=
  alignUp (layoutEnd 0 datablock_kernel_arg_scalar_fields)
    (structAlignment 8 datablock_batch_info_fields)

/-! ## Signal handler (`main.cc` lines 961–986) -/

structure ShutdownState where
  terminated : Bool
  deriving DecidableEq, Repr

/-- Observable side effects of one `handle_signal` invocation. -/
structure SignalEffects where
  coprocNotified : List Nat
  ioTermNotified : List Nat
  loopsBroken : List Nat
  lcoresWaited : Bool
  deriving DecidableEq, Repr

def emptySignalEffects : SignalEffects := ⟨[], [], [], false⟩

/-- `handle_signal`: the whole body is guarded by
`threading::is_thread_equal(main_thread_id, threading::self())`.  On the
main thread it fires the terminate watcher of every coproc thread whose
context exists and of every IO thread, breaks the IO event loops, waits for
the lcores, and sets `_terminated`; on any other thread it does nothing. -/
def handleSignalModel (isMainThread : Bool) (numNodes numIoThreads : Nat)
    (hasCoprocCtx : Nat → Bool) (s : ShutdownState) :
    ShutdownState × SignalEffects :=
  if isMainThread then
    ({ terminated := true },
     { coprocNotified := (List.range numNodes).filter hasCoprocCtx,
       ioTermNotified := List.range numIoThreads,
       loopsBroken := List.range numIoThreads,
       lcoresWaited := true })
  else (s, emptySignalEffects)

/-! ## Concrete inputs used by the witnesses -/

/-- Witness SHA1 stand-in: a constant 20-byte digest. -/
def wSha1 : List Nat → List Nat := fun _ => List.replicate 20 7

/-- Witness flows array: all key bytes zero. -/
def wFlows : Nat → Nat → Nat := fun _ _ => 0

/-- Witness stack-buffer garbage. -/
def wBuf : Nat → Nat := fun _ => 0

/-- Witness packet: `ihl = 5`, `tot_len = 60` (so `payload_len = 20`),
annotation set to flow 3. -/
def wPkt : PacketState :=
  { data := fun i => if i = 14 then 0x45 else if i = 17 then 60 else 0,
    ipsecFlowId := some 3 }

/-- Witness packet with the annotation unset. -/
def wPktNoAnno : PacketState :=
  { data := fun i => if i = 14 then 0x45 else if i = 17 then 60 else 0,
    ipsecFlowId := none }

/-- Witness system parameters: every queue-length key yields 256. -/
def wParams : String → Nat := fun _ => 256

/-- Witness queue configuration: a task-input queue on node 0 with
single-producer/single-consumer requested. -/
def wQueueConf : QueueConf :=
  { template_ := QueueTemplate.TASKINQ, node_id := 0, mp_enq := false, mc_deq := false }

/-! ## General lemmas about byte buffers -/

theorem length_readBytes (buf : Nat → Nat) (off n : Nat) :
    (readBytes buf off n).length = n := by
  simp [readBytes]

theorem readBytes_split (buf : Nat → Nat) (off m n : Nat) :
    readBytes buf off (m + n) = readBytes buf off m ++ readBytes buf (off + m) n := by
  simp [readBytes, List.range_add, List.map_map, Function.comp_def, Nat.add_assoc]

theorem readBytes_writeBytes_self (buf : Nat → Nat) (off : Nat) (src : List Nat) :
    readBytes (writeBytes buf off src) off src.length = src := by
  apply List.ext_getElem
  · simp [readBytes]
  · intro i h1 h2
    simp only [readBytes, List.getElem_map, List.getElem_range, writeBytes]
    rw [if_pos ⟨Nat.le_add_right _ _, by omega⟩]
    rw [Nat.add_sub_cancel_left]
    exact List.getD_eq_getElem src 0 h2

theorem readBytes_writeBytes_right (buf : Nat → Nat) (off off2 n : Nat)
    (src : List Nat) (h : off + src.length ≤ off2) :
    readBytes (writeBytes buf off src) off2 n = readBytes buf off2 n := by
  apply List.ext_getElem
  · simp [readBytes]
  · intro i h1 h2
    simp only [readBytes, List.getElem_map, List.getElem_range, writeBytes]
    rw [if_neg]
    omega

theorem writeBytes_outside (buf : Nat → Nat) (off : Nat) (src : List Nat)
    (j : Nat) (h : j < off ∨ off + src.length ≤ j) :
    writeBytes buf off src j = buf j := by
  simp only [writeBytes]
  rw [if_neg]
  omega

theorem xorBlock_eq_map (pad : Nat) (key : Nat → Nat) :
    xorBlock pad key = ((List.range HMAC_KEY_SIZE).map key).map
      (fun b => Nat.xor pad b) := by
  simp [xorBlock, List.map_map, Function.comp_def]

theorem length_xorBlock (pad : Nat) (key : Nat → Nat) :
    (xorBlock pad key).length = 64 := by
  simp [xorBlock, HMAC_KEY_SIZE]

/-- Reading back `[0, 64 + len)` of the `hmac_buf` after the two writes
(`payload`-like data at offset 64, then a 64-byte pad block at offset 0)
yields the concatenation `block ++ data`. -/
theorem read_write64_split (buf : Nat → Nat) (block src : List Nat)
    (h64 : block.length = 64) :
    readBytes (writeBytes (writeBytes buf 64 src) 0 block) 0 (64 + src.length)
      = block ++ src := by
  rw [readBytes_split]
  congr 1
  · rw [← h64, readBytes_writeBytes_self]
  · rw [readBytes_writeBytes_right (writeBytes buf 64 src) 0 64 src.length block
      (by omega), readBytes_writeBytes_self]

/-- Closed form of `IPsecAuthHMACSHA1::process` when the flow annotation is
set: the packet gets the reference HMAC-SHA1 digest written at
`payload_out + payload_len`, is not killed, and is pushed to output port 0. -/
theorem processIPsecAuth_some_eq (sha1 : List Nat → List Nat)
    (flows : Nat → Nat → Nat) (buf0 : Nat → Nat) (pkt : PacketState) (k : Nat)
    (hanno : pkt.ipsecFlowId = some k)
    (hdig : ∀ m, (sha1 m).length = SHA_DIGEST_LENGTH) :
    processIPsecAuth sha1 flows buf0 pkt =
      ⟨writeBytes pkt.data (payloadOutOffset + (payloadLenInt pkt.data).toNat)
          (hmacSha1Ref sha1 (tunnelKey flows k)
            (readBytes pkt.data payloadOutOffset (payloadLenInt pkt.data).toNat)),
        false, [0], 0⟩ := by
  have htake : ∀ m : List Nat, (sha1 m).take SHA_DIGEST_LENGTH = sha1 m :=
    fun m => List.take_of_length_le (by rw [hdig])
  unfold processIPsecAuth
  rw [hanno]
  simp only []
  have hpay : (readBytes pkt.data payloadOutOffset
      (payloadLenInt pkt.data).toNat).length = (payloadLenInt pkt.data).toNat :=
    length_readBytes _ _ _
  have e1 : readBytes
      (writeBytes (writeBytes buf0 64
        (readBytes pkt.data payloadOutOffset (payloadLenInt pkt.data).toNat))
        0 (xorBlock 0x36 (flows k)))
      0 (64 + (payloadLenInt pkt.data).toNat)
      = xorBlock 0x36 (flows k) ++
        readBytes pkt.data payloadOutOffset (payloadLenInt pkt.data).toNat := by
    have h := read_write64_split buf0 (xorBlock 0x36 (flows k))
      (readBytes pkt.data payloadOutOffset (payloadLenInt pkt.data).toNat)
      (length_xorBlock _ _)
    rwa [hpay] at h
  rw [e1]
  simp only [htake]
  have e2 : readBytes
      (writeBytes (writeBytes
        (writeBytes (writeBytes buf0 64
          (readBytes pkt.data payloadOutOffset (payloadLenInt pkt.data).toNat))
          0 (xorBlock 0x36 (flows k)))
        64 (sha1 (xorBlock 0x36 (flows k) ++
          readBytes pkt.data payloadOutOffset (payloadLenInt pkt.data).toNat)))
        0 (xorBlock 0x5c (flows k)))
      0 (64 + SHA_DIGEST_LENGTH)
      = xorBlock 0x5c (flows k) ++
        sha1 (xorBlock 0x36 (flows k) ++
          readBytes pkt.data payloadOutOffset (payloadLenInt pkt.data).toNat) := by
    have h := read_write64_split
      (writeBytes (writeBytes buf0 64
        (readBytes pkt.data payloadOutOffset (payloadLenInt pkt.data).toNat))
        0 (xorBlock 0x36 (flows k)))
      (xorBlock 0x5c (flows k))
      (sha1 (xorBlock 0x36 (flows k) ++
        readBytes pkt.data payloadOutOffset (payloadLenInt pkt.data).toNat))
      (length_xorBlock _ _)
    rwa [hdig] at h
  rw [e2]
  simp only [hmacSha1Ref, xorBlock_eq_map, tunnelKey]

/-! ## Lemmas about the initialization call sequences -/

theorem ipsecInitPerNode_keeps_array (node : Nat) (s s2 : IpsecInitState)
    (h : ipsecInitPerNode node s = some s2) :
    s2.saEntryArray = s.saEntryArray := by
  unfold ipsecInitPerNode at h
  cases harr : s.saEntryArray with
  | none => rw [harr] at h; cases h
  | some arr =>
    rw [harr] at h
    cases h
    simp [harr]

theorem runInitCalls_array_none (l : List InitCall) (s : IpsecInitState)
    (h : s.saEntryArray = none) :
    (runInitCalls l s).isSome = !(hasPerNode l) := by
  induction l generalizing s with
  | nil => simp [runInitCalls, hasPerNode]
  | cons c rest ih =>
    cases c with
    | perNode n =>
      simp only [runInitCalls, ipsecInitPerNode, h, hasPerNode, List.any_cons]
      simp
    | perThread t =>
      have h2 : (ipsecInitPerThread s).saEntryArray = none := by
        unfold ipsecInitPerThread
        rw [h]
        exact h
      simp only [runInitCalls, hasPerNode, List.any_cons]
      rw [ih _ h2]
      simp [hasPerNode]

theorem runInitCalls_array_some (l : List InitCall) (s : IpsecInitState)
    (arr : List (List Nat)) (h : s.saEntryArray = some arr) :
    (runInitCalls l s).isSome = nodesBeforeThreads l := by
  induction l generalizing s with
  | nil => simp [runInitCalls, nodesBeforeThreads]
  | cons c rest ih =>
    cases c with
    | perNode n =>
      have hstep : ipsecInitPerNode n s =
          some { s with nodeFlows := fun m => if m = n then some arr else s.nodeFlows m } := by
        unfold ipsecInitPerNode
        rw [h]
      simp only [runInitCalls, hstep, nodesBeforeThreads]
      exact ih _ (by simpa using h)
    | perThread t =>
      have h2 : (ipsecInitPerThread s).saEntryArray = none := by
        unfold ipsecInitPerThread
        rw [h]
      simp only [runInitCalls, nodesBeforeThreads]
      rw [runInitCalls_array_none rest _ h2]

/-! ## Claim theorems -/

/-- Claim C1 counterexample: in the bootstrap sequence of `main` (with
coprocessor threads configured), the claimed order "per-class, per-node,
per-thread, offload-element" does NOT hold: offload-element initialization
runs before per-thread initialization. -/
theorem bootstrap_spec_phase_order_fails : ¬ specPhaseOrder (bootstrapTrace true) := by
  unfold specPhaseOrder
  decide

/-- Claim C1 (amended): during bootstrap the element initialization phases
run in the order per-class (global), then per-node, then offload-element,
then per-thread, each (serialized by barriers, modelled as main-thread
program order) completing before the next begins and all before traffic
flows. -/
theorem bootstrap_code_phase_order : codePhaseOrder (bootstrapTrace true) := by
  unfold codePhaseOrder
  decide

/-- Claim C2: for a packet whose `IPSEC_FLOW_ID` annotation is `k` (a valid
tunnel), `IPsecAuthHMACSHA1::process` on the CPU path writes exactly the
20-byte reference HMAC-SHA1 of the authenticated region
`[payload_out, payload_out + payload_len)` under the 64-byte key of tunnel
`k` at `payload_out + payload_len`, leaves every other packet byte
unchanged, and pushes the packet to output port 0.  `sha1` is the external
SHA1 primitive (any function producing 20-byte digests); `payload_len` is
required to be non-negative (well-formed encapsulation). -/
theorem ipsecAuth_cpu_writes_reference_hmac
    (sha1 : List Nat → List Nat) (flows : Nat → Nat → Nat) (buf0 : Nat → Nat)
    (pkt : PacketState) (k : Nat)
    (hanno : pkt.ipsecFlowId = some k)
    (_hk : k < numTunnels)
    (hdig : ∀ m, (sha1 m).length = SHA_DIGEST_LENGTH)
    (_hpl : 0 ≤ payloadLenInt pkt.data) :
    readBytes (processIPsecAuth sha1 flows buf0 pkt).data
        (payloadOutOffset + (payloadLenInt pkt.data).toNat) SHA_DIGEST_LENGTH
      = hmacSha1Ref sha1 (tunnelKey flows k)
          (readBytes pkt.data payloadOutOffset (payloadLenInt pkt.data).toNat) ∧
    (processIPsecAuth sha1 flows buf0 pkt).pushes = [0] ∧
    (processIPsecAuth sha1 flows buf0 pkt).killed = false ∧
    ∀ j, (j < payloadOutOffset + (payloadLenInt pkt.data).toNat ∨
          payloadOutOffset + (payloadLenInt pkt.data).toNat + SHA_DIGEST_LENGTH ≤ j) →
      (processIPsecAuth sha1 flows buf0 pkt).data j = pkt.data j := by
  have hlen : (hmacSha1Ref sha1 (tunnelKey flows k)
      (readBytes pkt.data payloadOutOffset (payloadLenInt pkt.data).toNat)).length
      = SHA_DIGEST_LENGTH := hdig _
  rw [processIPsecAuth_some_eq sha1 flows buf0 pkt k hanno hdig]
  refine ⟨?_, rfl, rfl, ?_⟩
  · rw [← hlen, readBytes_writeBytes_self]
  · intro j hj
    apply writeBytes_outside
    rcases hj with hj | hj
    · exact Or.inl hj
    · right
      rw [hlen]
      exact hj

/-- Witness for C2 at a concrete packet (ihl 5, total length 60, flow 3). -/
theorem ipsecAuth_cpu_writes_reference_hmac_witness :
    wPkt.ipsecFlowId = some 3 ∧ 3 < numTunnels ∧ 0 ≤ payloadLenInt wPkt.data ∧
    readBytes (processIPsecAuth wSha1 wFlows wBuf wPkt).data
        (payloadOutOffset + (payloadLenInt wPkt.data).toNat) SHA_DIGEST_LENGTH
      = hmacSha1Ref wSha1 (tunnelKey wFlows 3)
          (readBytes wPkt.data payloadOutOffset (payloadLenInt wPkt.data).toNat) := by
  have h := ipsecAuth_cpu_writes_reference_hmac wSha1 wFlows wBuf wPkt 3
    rfl (by decide) (fun m => by simp [wSha1, SHA_DIGEST_LENGTH]) (by decide)
  exact ⟨rfl, by decide, by decide, h.1⟩

/-- Claim C3 counterexample: the two stated preconditions (annotation below
`num_tunnels` and payload length at most 1984) do NOT imply in-bounds
accesses.  At annotation 0 and `payload_len = -1` both preconditions hold,
yet the `size_t` conversion of the negative length makes the payload copy
overrun the 2048-byte `hmac_buf`. -/
theorem ipsecAuth_mem_claim_fails :
    0 < numTunnels ∧ (-1 : Int) ≤ 1984 ∧ ¬ processMemSafe numTunnels 0 (-1) := by
  unfold processMemSafe
  decide

/-- Claim C3 (amended): every modelled memory access of
`IPsecAuthHMACSHA1::process` is in bounds provided the annotation value is
below `num_tunnels` (1024, set by `configure`) and the authenticated
payload length is *non-negative* and at most 1984 bytes. -/
theorem ipsecAuth_mem_safe (k : Nat) (pl : Int)
    (hk : k < numTunnels) (h0 : 0 ≤ pl) (h1 : pl ≤ 1984) :
    processMemSafe numTunnels k pl := by
  refine ⟨hk, ?_⟩
  have hlt : pl < (2 : Int) ^ 64 := lt_of_le_of_lt h1 (by norm_num)
  have hs : sizeTOfInt pl = pl.toNat := by
    unfold sizeTOfInt
    rw [Int.emod_eq_of_lt h0 hlt]
  have hn : pl.toNat ≤ 1984 := by omega
  simp only [intervalsWithin, hmacBufIntervals, hs, HMAC_BUF_SIZE,
    SHA_DIGEST_LENGTH, List.all_cons, List.all_nil, Bool.and_eq_true,
    decide_eq_true_eq]
  refine ⟨by omega, by omega, by omega, by omega, by omega, by omega, trivial⟩

/-- Witness for the amended C3 at annotation 5 and payload length 100. -/
theorem ipsecAuth_mem_safe_witness :
    5 < numTunnels ∧ (0 : Int) ≤ 100 ∧ (100 : Int) ≤ 1984 ∧
    processMemSafe numTunnels 5 100 :=
  ⟨by decide, by decide, by decide,
   ipsecAuth_mem_safe 5 100 (by decide) (by decide) (by decide)⟩

/-- Claim C4: when the `IPSEC_FLOW_ID` annotation is not set,
`IPsecAuthHMACSHA1::process` calls `pkt->kill()`, returns 0, pushes the
packet to no output port, and leaves the packet bytes untouched, so the
drop is local to that packet. -/
theorem ipsecAuth_no_anno_kills
    (sha1 : List Nat → List Nat) (flows : Nat → Nat → Nat) (buf0 : Nat → Nat)
    (pkt : PacketState) (hanno : pkt.ipsecFlowId = none) :
    (processIPsecAuth sha1 flows buf0 pkt).killed = true ∧
    (processIPsecAuth sha1 flows buf0 pkt).pushes = [] ∧
    (processIPsecAuth sha1 flows buf0 pkt).ret = 0 ∧
    (processIPsecAuth sha1 flows buf0 pkt).data = pkt.data := by
  unfold processIPsecAuth
  rw [hanno]
  exact ⟨rfl, rfl, rfl, rfl⟩

/-- Witness for C4 at a concrete packet without the annotation. -/
theorem ipsecAuth_no_anno_kills_witness :
    wPktNoAnno.ipsecFlowId = none ∧
    (processIPsecAuth wSha1 wFlows wBuf wPktNoAnno).killed = true ∧
    (processIPsecAuth wSha1 wFlows wBuf wPktNoAnno).pushes = [] :=
  ⟨rfl, (ipsecAuth_no_anno_kills wSha1 wFlows wBuf wPktNoAnno rfl).1,
   (ipsecAuth_no_anno_kills wSha1 wFlows wBuf wPktNoAnno rfl).2.1⟩

/-- Claim C5 (code evaluated at the failing inputs): with zero or one
positional arguments `main` proceeds without any fatal argument error
(contradicting the claim); with three it exits "Too many NBA arguments.";
with four it exits — but through the misfiring "Not enough NBA arguments."
branch (`optind + 2 < argc - 1` fires only for more than three
positionals). -/
theorem mainArgCheck_accepts_missing_args :
    mainArgCheck 1 1 (fun _ => "") = ArgCheck.proceed none none ∧
    mainArgCheck 1 2 (fun _ => "sys.conf") = ArgCheck.proceed (some "sys.conf") none ∧
    mainArgCheck 1 4 (fun _ => "x") = ArgCheck.fatalExit "Too many NBA arguments." ∧
    mainArgCheck 1 5 (fun _ => "x") = ArgCheck.fatalExit "Not enough NBA arguments." :=
  ⟨rfl, rfl, rfl, rfl⟩

/-- Claim C6 (code evaluated at the failing input): the `--loglevel`
handler maps the seven values it knows to the corresponding DPDK levels
but rejects `alert` with a fatal exit, although the program's own usage
text lists `alert` as available. -/
theorem parseLogLevel_alert_missing :
    parseLogLevelOpt "alert" = none ∧
    parseLogLevelOpt "debug" = some RTE_LOG_DEBUG ∧
    parseLogLevelOpt "info" = some RTE_LOG_INFO ∧
    parseLogLevelOpt "notice" = some RTE_LOG_NOTICE ∧
    parseLogLevelOpt "warning" = some RTE_LOG_WARNING ∧
    parseLogLevelOpt "error" = some RTE_LOG_ERR ∧
    parseLogLevelOpt "critical" = some RTE_LOG_CRIT ∧
    parseLogLevelOpt "emergency" = some RTE_LOG_EMERG :=
  ⟨rfl, rfl, rfl, rfl, rfl, rfl, rfl, rfl⟩

/-- Claim C7 counterexample: a handoff ring created at bootstrap does not
carry the single-producer or single-consumer flags — the flags word passed
to `rte_ring_create` is 0 (multi-producer/multi-consumer), because the
SP/SC flag expression is commented out in the source. -/
theorem bootstrapRing_not_sp_sc :
    (createBootstrapRing wParams wQueueConf).flags &&& RING_F_SP_ENQ = 0 ∧
    (createBootstrapRing wParams wQueueConf).flags &&& RING_F_SC_DEQ = 0 ∧
    (createBootstrapRing wParams wQueueConf).flags ≠
      (RING_F_SP_ENQ ||| RING_F_SC_DEQ) := by
  decide

/-- Claim C7 (amended): every software handoff ring created at bootstrap
(SWRXQ, task input, task completion) is created with flags 0 —
multi-producer enqueue / multi-consumer dequeue, the SP/SC selection being
commented out — and carries a watermark equal to its capacity minus 8. -/
theorem bootstrapRing_flags_watermark (params : String → Nat) (conf : QueueConf) :
    (createBootstrapRing params conf).flags = 0 ∧
    (createBootstrapRing params conf).watermark =
      bootstrapQueueLength params conf.template_ - 8 :=
  ⟨rfl, rfl⟩

/-- Claim C8: the host↔device datablock argument is a header with fields
`total_item_count_in`, `total_item_count_out`, `item_size_in`,
`item_size_out` followed by a flexible array of per-batch records with
fields `buffer_bases_in`, `buffer_bases_out`, `item_count_in`,
`item_count_out`, `item_sizes_in`, `item_sizes_out`, `item_offsets_in`,
`item_offsets_out`; both record types are 8-byte aligned and the flexible
array begins at an 8-byte aligned offset (16). -/
theorem datablock_layout_as_specified :
    datablock_kernel_arg_scalar_fields.map CField.name =
      ["total_item_count_in", "total_item_count_out", "item_size_in", "item_size_out"] ∧
    datablock_batch_info_fields.map CField.name =
      ["buffer_bases_in", "buffer_bases_out", "item_count_in", "item_count_out",
       "item_sizes_in", "item_sizes_out", "item_offsets_in", "item_offsets_out"] ∧
    structAlignment 8 datablock_batch_info_fields = 8 ∧
    structAlignment 8 datablock_kernel_arg_scalar_fields = 8 ∧
    batchesOffset = 16 ∧
    batchesOffset % 8 = 0 := by
  refine ⟨rfl, rfl, ?_, ?_, ?_, ?_⟩ <;> decide

/-- Claim C9: the per-thread `initialize` frees the process-global key
array and NULLs it, idempotently; `initialize_per_node` succeeds exactly
when the array is still non-NULL; after `initialize_global`, a sequence of
per-node and per-thread calls passes all assertions exactly when every
per-node call precedes the first per-thread call; and the bootstrap
sequence runs the per-node phase before the per-thread phase. -/
theorem ipsec_init_assertion_valid :
    (∀ s, (ipsecInitPerThread s).saEntryArray = none ∧
      ipsecInitPerThread (ipsecInitPerThread s) = ipsecInitPerThread s) ∧
    (∀ s n, (ipsecInitPerNode n s).isSome = s.saEntryArray.isSome) ∧
    (∀ l : List InitCall,
      ((ipsecInitGlobal numTunnels ipsecInitState0).bind
        (fun s => runInitCalls l s)).isSome = nodesBeforeThreads l) ∧
    (∀ hasCoproc : Bool,
      phasePos (bootstrapTrace hasCoproc) BootPhase.perNodeInit <
      phasePos (bootstrapTrace hasCoproc) BootPhase.perThreadInit) := by
  refine ⟨?_, ?_, ?_, ?_⟩
  · intro s
    cases h : s.saEntryArray <;>
      simp [ipsecInitPerThread, h]
  · intro s n
    cases h : s.saEntryArray <;>
      simp [ipsecInitPerNode, h]
  · intro l
    have hg : ipsecInitGlobal numTunnels ipsecInitState0 =
        some { ipsecInitState0 with
          saEntryArray := some ((List.range numTunnels).map (fun _ => hmacKeyBytes)) } := by
      unfold ipsecInitGlobal
      norm_num [numTunnels]
    rw [hg]
    exact runInitCalls_array_some l _ _ rfl
  · intro hasCoproc
    cases hasCoproc <;> decide

/-- Claim C10: `handle_signal` invoked on any thread other than the main
thread changes nothing — the `_terminated` flag is untouched and no
notifier, loop break, or lcore wait happens; only a main-thread invocation
triggers the shutdown (setting `_terminated`). -/
theorem handleSignal_nonmain_noop (numNodes numIoThreads : Nat)
    (hasCoprocCtx : Nat → Bool) (s : ShutdownState) :
    handleSignalModel false numNodes numIoThreads hasCoprocCtx s
      = (s, emptySignalEffects) ∧
    (handleSignalModel true numNodes numIoThreads hasCoprocCtx s).1.terminated
      = true :=
  ⟨rfl, rfl⟩

end NBA
